import Mathlib

/-!
Shallow embedding of the `pinkypromise` Go promise library
(`src/promise/promise.go`, `src/promise/promise_utils.go`, and the
variant implementation in `src/unnamed/part_000`).

Modelling conventions:
* Go's `error` is `Option String` (`none` is a nil error, `some s` a
  non-nil error carrying its message, as built by `errors.New`).
* The zero value of a Go type parameter `T` is `default : T` via
  `Inhabited T`.
* A `Promise[T]` is a record of its `notDone` flag, its two handler
  queues and its `(res, err)` slots.  The two mutexes guard concurrent
  access and have no functional content in a sequential model; the
  *order* in which `call` updates state and then drains exactly one of
  the detached queues is kept.
* Handlers are closures in Go.  A handler registered on a promise of
  type `T` by `Then`/`Catch` deriving a promise of type `X` is modelled
  by its semantic content: the producing function it hands to the
  derived promise's `call`, i.e. a function from the dispatched argument
  (`T` for the success queue, the error message for the failure queue)
  to the `(X, error)` pair that settles the derived promise.
-/

namespace PinkyPromise

/-- A Go error value: `none` is nil. -/
abbrev GoErr := Option String

/-- `Promise[T]` from promise.go lines 11-31: the `notDone` flag
(false on zero-value init), the success queue `thenList`, the failure
queue `errorList`, and the result slots `res`/`err`.  `HT`/`HE` are the
types of the queued success/failure handlers. -/
structure Promise (T HT HE : Type) where
  notDone : Bool
  thenList : List HT
  errorList : List HE
  res : T
  err : GoErr
  deriving Repr

/-- The outcome of one run of the settlement engine `call`:
the promise's new state, plus the invocation trace — which success
handlers were invoked (each paired with the value it received) and
which failure handlers were invoked (each paired with the error). -/
structure CallResult (T HT HE : Type) where
  state : Promise T HT HE
  successRuns : List (HT × T)
  failureRuns : List (HE × String)
  deriving Repr

/-- The settlement engine `call` from promise.go lines 34-61.  It runs
the producing function `f`, then (under the state lock) marks the
promise settled, stores `(res, err)` and detaches both handler queues;
then (holding `doneMu`) it invokes, in queue order, only the detached
failure handlers (each with the error) when `err` is non-nil, and only
the detached success handlers (each with the value) when `err` is nil. -/
def Promise.call (p : Promise T HT HE) (f : Unit → T × GoErr) :
    CallResult T HT HE :=
  let res := (f ()).1
  let err := (f ()).2
  let settled : Promise T HT HE :=
    { notDone := false, thenList := [], errorList := [], res := res, err := err }
  match err with
  | some e => ⟨settled, [], p.errorList.map (fun s => (s, e))⟩
  | none => ⟨settled, p.thenList.map (fun s => (s, res)), []⟩

/-- `PromiseResolution[T]` from promise.go lines 64-70. -/
structure PromiseResolution (T : Type) where
  Result : T
  Error : GoErr
  deriving Repr, DecidableEq

/-- `Resolve` from promise.go lines 73-80: `none` (a nil pointer) while
the promise is pending, otherwise the stored `(res, err)` pair. -/
def Promise.Resolve (p : Promise T HT HE) : Option (PromiseResolution T) :=
  if p.notDone then none else some ⟨p.res, p.err⟩

/-- The freshly allocated pending promise
`&Promise[X]{notDone: true, errorList: list.New(), thenList: list.New()}`
(promise.go lines 84, 111, 166): pending, empty queues, zero-valued
result slots. -/
def freshPending [Inhabited T] : Promise T HT HE :=
  ⟨true, [], [], default, none⟩

/-- `NewFn` from promise.go lines 83-87 returns the fresh pending
promise immediately and spawns `go p.call(f)`. -/
def NewFn [Inhabited T] (_f : Unit → T × GoErr) : Promise T HT HE :=
  freshPending

/-- The eventual state and trace of a promise spawned by `NewFn f`,
once the goroutine `p.call(f)` has run. -/
def NewFnSettled [Inhabited T] (f : Unit → T × GoErr) : CallResult T HT HE :=
  (freshPending : Promise T HT HE).call f

/-- `NewFnWithArg` from the variant implementation in
src/unnamed/part_000 lines 305-309: binds `arg` into a zero-argument
producer and delegates to `NewFn`. -/
def NewFnWithArgSettled [Inhabited X] (arg : T) (f : T → X × GoErr) :
    CallResult X HX HE :=
  NewFnSettled (fun _ => f arg)

/-- `NewResolved` from promise.go lines 90-92:
`&Promise[T]{res: result}` — every other field at its zero value. -/
def NewResolved [Inhabited T] (result : T) : Promise T HT HE :=
  ⟨false, [], [], result, none⟩

/-- `NewRejected` from promise.go lines 95-97:
`&Promise[T]{err: err}` — every other field at its zero value.  The
argument may itself be a nil error (`none`). -/
def NewRejected [Inhabited T] (err : GoErr) : Promise T HT HE :=
  ⟨false, [], [], default, err⟩

/-- A `Promise[T]` value constructed directly with all fields at their
Go zero values (promise.go lines 11-31: `notDone` false, nil lists,
zero `res`, nil `err`). -/
def zeroPromise [Inhabited T] : Promise T HT HE :=
  ⟨false, [], [], default, none⟩

/-! ### Chaining combinators

A handler registered on a `Promise T _ _` that derives a `Promise X _ _`
is modelled by the producing function it feeds to the derived promise's
`call`.  So for a source promise of type `T` deriving promises of type
`X` the handler queues are instantiated with
`HT := T → X × GoErr` and `HE := String → X × GoErr`. -/

/-- A source promise of type `T` whose queued handlers settle derived
promises of type `X`. -/
abbrev PromiseD (T X : Type) :=
  Promise T (T → X × GoErr) (String → X × GoErr)

/-- A derived promise: in the scenarios of the claims no handler is ever
registered on it, so its own handler types are `Unit`. -/
abbrev Derived (X : Type) := Promise X Unit Unit

/-- The success wrapper `thenHn` that `Then` pushes onto the source's
`thenList` (promise.go lines 112-117): invoked with the source's
result, it settles the derived promise with `f res`. -/
def thenHn (f : T → X × GoErr) : T → X × GoErr :=
  fun res => f res

/-- The failure wrapper `catchHn` that `Then` pushes onto the source's
`errorList` (promise.go lines 120-125): invoked with the source's
error, it settles the derived promise with the zero value and that same
error. -/
def thenCatchHn [Inhabited X] : String → X × GoErr :=
  fun err => (default, some err)

/-- The producer of the `NewFn` promise that `Then` spawns when the
source is already settled (promise.go lines 139-154): it takes `doneMu`
and returns the captured error unchanged when it is non-nil, otherwise
`f` applied to the captured result. -/
def thenSettledProducer [Inhabited X] (res : T) (err : GoErr)
    (f : T → X × GoErr) : Unit → X × GoErr :=
  fun _ =>
    match err with
    | some e => (default, some e)
    | none => f res

/-- What one invocation of `Then(p, f)` returns and does
(promise.go lines 101-155): the source promise's possibly-updated
state, the derived promise as returned to the caller, and — on the
already-settled path — the producer of the goroutine spawned through
`NewFn` (`none` when no task is spawned, i.e. on the pending path). -/
structure ThenResult (T X : Type) where
  source : PromiseD T X
  derived : Derived X
  spawnedProducer : Option (Unit → X × GoErr)

/-- `Then` from promise.go lines 101-155.  Pending source: push
`thenHn` and `catchHn` onto the respective queues and return a fresh
pending derived promise; no task is spawned.  Settled source: leave the
source untouched and return `NewFn` of `thenSettledProducer` over the
captured `(res, err)`. -/
def Then [Inhabited X] (p : PromiseD T X) (f : T → X × GoErr) :
    ThenResult T X :=
  if p.notDone then
    ⟨{ p with
        thenList := p.thenList ++ [thenHn f],
        errorList := p.errorList ++ [thenCatchHn] },
      freshPending, none⟩
  else
    ⟨p, freshPending, some (thenSettledProducer p.res p.err f)⟩

/-- What one invocation of `Catch(p, f)` returns and does
(promise.go lines 159-208): the source promise's possibly-updated
state, the derived promise as returned to the caller, and — on the
already-settled-failure path — the producer of the spawned goroutine's
`call` (`none` when no goroutine is spawned). -/
structure CatchResult (T X : Type) where
  source : PromiseD T X
  derived : Derived X
  spawnedProducer : Option (Unit → X × GoErr)

/-- `Catch` from promise.go lines 159-208.  Pending source: push only
the failure wrapper (which settles the derived promise with `f err`)
onto `errorList`; the fresh derived promise has no success hookup.
Settled source with nil error: no goroutine; the derived promise is
returned with `notDone` forced to false (settled success, zero value,
nil error).  Settled source with non-nil error: spawn
`go newPromise.call(fun => f err)`. -/
def Catch [Inhabited X] (p : PromiseD T X) (f : String → X × GoErr) :
    CatchResult T X :=
  let newPromise : Derived X := freshPending
  if p.notDone then
    ⟨{ p with errorList := p.errorList ++ [fun err => f err] },
      newPromise, none⟩
  else
    match p.err with
    | none => ⟨p, { newPromise with notDone := false }, none⟩
    | some e => ⟨p, newPromise, some (fun _ => f e)⟩

/-- The eventual state of a derived promise once its `call` has run on
the producing output `out` — used both for an invoked queue wrapper
(whose output is wrapper applied to dispatched argument) and for a
spawned producer. -/
def settleDerived [Inhabited X] (out : X × GoErr) : CallResult X Unit Unit :=
  (freshPending : Derived X).call (fun _ => out)

/-! ### Batch combinators

Every input promise of a batch combinator is modelled by its eventual
settled outcome, a `(value, error)` pair — `All`, `Race` and
`Iterator`'s slow path all block until the relevant promise settles, so
only that outcome is observable through them. -/

/-- `All` from promise_utils.go lines 11-39.  For slot `i` the `Then`
handler writes the value into `results[i]` and reports a nil error; on
failure the `Then` handler never fires, the slot keeps the zero value
placed there by `make`, and the `Catch` handler reports the error.
`errgroup.Wait` returns the first non-nil reported error; the
nondeterministic observation order is modelled as input order. -/
def All [Inhabited T] (ps : List (T × GoErr)) : List T × GoErr :=
  (ps.map (fun o =>
    match o.2 with
    | none => o.1
    | some _ => default),
   ps.findSome? (fun o => o.2))

/-- `NoPromises` from promise_utils.go line 42. -/
def NoPromises : String := "no promises specified"

/-- `Race` from promise_utils.go lines 45-74.  Empty input: return the
zero value and `NoPromises` immediately (no channel is touched).
Otherwise the outcome of whichever promise's settlement notification
wins the atomic exchange is returned; the nondeterministic winner is
modelled by the explicit index `win`, reduced modulo the input
length. -/
def Race [Inhabited T] (ps : List (T × GoErr)) (win : Nat) : T × GoErr :=
  match ps with
  | [] => (default, some NoPromises)
  | _ => ps.getD (win % ps.length) (default, none)

/-- One yield of the function returned by `Iterator` for the slot it
has reached (promise_utils.go lines 91-109).  `fast = true` models
`p.Resolve()` returning non-nil (the promise already settled): the
stored pair is returned directly.  `fast = false` models the hook path:
the registered `Then` handler sets `val` on success (leaving `err`
nil), the registered `Catch` handler sets `err` on failure (leaving
`val` at its zero value).  Either way `end` is false. -/
def iterYield [Inhabited T] (slot : T × GoErr) (fast : Bool) :
    T × Bool × GoErr :=
  if fast then (slot.1, false, slot.2)
  else
    match slot.2 with
    | none => (slot.1, false, none)
    | some e => (default, false, some e)

/-- One call of the closure returned by `Iterator`
(promise_utils.go lines 78-111) at internal index `index`: when
`index` equals the input length it reports end (zero value, nil error)
and leaves the index unchanged; otherwise it yields slot `index`'s
outcome and increments the index.  `fast` records per slot whether its
promise is already settled when its turn comes. -/
def iterNext [Inhabited T] (ps : List (T × GoErr)) (fast : List Bool)
    (index : Nat) : (T × Bool × GoErr) × Nat :=
  if index = ps.length then ((default, true, none), index)
  else (iterYield (ps.getD index (default, none)) (fast.getD index true),
        index + 1)

/-- The iterator's internal index after `k` calls, starting from 0. -/
def iterIndex [Inhabited T] (ps : List (T × GoErr)) (fast : List Bool) :
    Nat → Nat
  | 0 => 0
  | k + 1 => (iterNext ps fast (iterIndex ps fast k)).2

/-- The value yielded by the k-th call (0-based) of the closure
returned by `Iterator`. -/
def iterOutput [Inhabited T] (ps : List (T × GoErr)) (fast : List Bool)
    (k : Nat) : T × Bool × GoErr :=
  (iterNext ps fast (iterIndex ps fast k)).1

/-! ### The mutations a promise object undergoes

Every write the library performs on the fields of an existing promise
object:
* `Then` on a pending source pushes onto both queues
  (promise.go lines 109-133) — guarded by `!done`;
* `Catch` on a pending source pushes onto the failure queue
  (promise.go lines 169-183) — guarded by `!done`;
* the settlement engine `call` performs the settle write
  (promise.go lines 39-47).  `call` runs on a given promise object
  exactly once: it is invoked only by the goroutine `NewFn` spawned at
  the promise's creation, or by the single wrapper (or
  success/failure wrapper pair, of which at most one queue is ever
  drained) that the combinator creating the promise registered, or by
  the one goroutine spawned on an already-settled path — so it always
  finds the promise pending.

(`Catch` on a settled-success source flips `notDone` on the *fresh*
derived promise before anyone else can see it, promise.go line 190;
that write belongs to the derived promise's construction, not to a
mutation of an existing promise.) -/

/-- One mutation of a given promise object's state, as performed by the
library (see the section comment for the correspondence to the
source). -/
inductive Step {T X : Type} [Inhabited X] :
    PromiseD T X → PromiseD T X → Prop
  | registerThen (p : PromiseD T X) (f : T → X × GoErr)
      (h : p.notDone = true) : Step p (Then p f).source
  | registerCatch (p : PromiseD T X) (f : String → X × GoErr)
      (h : p.notDone = true) : Step p (Catch p f).source
  | settle (p : PromiseD T X) (f : Unit → T × GoErr)
      (h : p.notDone = true) : Step p (p.call f).state

/-! ### Theorems -/

/-- C2: the settlement engine `call f`, for every promise and producing
function `f`, first marks the promise settled, stores `f`'s
`(result, error)` and detaches both handler queues (the new state has
empty queues); then it invokes only the detached failure handlers, each
with the error and strictly in registration order, when `f` returned a
non-nil error, and only the detached success handlers, each with the
value and strictly in registration order, when the error is nil. -/
theorem call_settles_then_dispatches_one_queue {T HT HE : Type}
    (p : Promise T HT HE) (f : Unit → T × GoErr) :
    (p.call f).state =
      ⟨false, [], [], (f ()).1, (f ()).2⟩ ∧
    (∀ e, (f ()).2 = some e →
      (p.call f).failureRuns = p.errorList.map (fun s => (s, e)) ∧
      (p.call f).successRuns = []) ∧
    ((f ()).2 = none →
      (p.call f).successRuns = p.thenList.map (fun s => (s, (f ()).1)) ∧
      (p.call f).failureRuns = []) := by
  refine ⟨?_, ?_, ?_⟩
  · cases h : (f ()).2 <;> simp [Promise.call, h]
  · intro e he
    simp [Promise.call, he]
  · intro he
    simp [Promise.call, he]

/-- Witness for C2 at a concrete promise with two queued success
handlers and one queued failure handler (handlers tagged by strings),
whose producer fails with "boom". -/
theorem call_settles_then_dispatches_one_queue_witness :
    (Promise.call ⟨true, ["h1", "h2"], ["k1"], 0, none⟩
        (fun _ => ((7 : Nat), some "boom"))).failureRuns = [("k1", "boom")] ∧
    (Promise.call (⟨true, ["h1", "h2"], ["k1"], 0, none⟩ : Promise Nat String String)
        (fun _ => ((7 : Nat), some "boom"))).successRuns = [] :=
  (call_settles_then_dispatches_one_queue
    (⟨true, ["h1", "h2"], ["k1"], 0, none⟩ : Promise Nat String String)
    (fun _ => ((7 : Nat), some "boom"))).2.1 "boom" rfl

/-- Every mutation the library performs on an existing promise object
starts from the pending state: registration is guarded by `!done` in
the source, and the settlement engine runs exactly once per promise,
at a point where it is still pending. -/
theorem step_starts_pending {T X : Type} [Inhabited X]
    {p q : PromiseD T X} (s : Step p q) : p.notDone = true := by
  cases s with
  | registerThen f h => exact h
  | registerCatch f h => exact h
  | settle f h => exact h

/-- C3: the transition from pending to settled happens at most once and
is irreversible: a promise whose `Resolve` already returns a non-nil
resolution `r` is never mutated again — after any sequence of the
library's own state transitions it is the very same state, and
`Resolve` keeps returning the identical `(value, error)` pair `r`. -/
theorem settled_promise_is_immutable {T X : Type} [Inhabited X]
    (p q : PromiseD T X) (r : PromiseResolution T)
    (hr : p.Resolve = some r)
    (hsteps : Relation.ReflTransGen Step p q) :
    q = p ∧ q.Resolve = some r := by
  have hdone : p.notDone = false := by
    by_contra h
    rw [Promise.Resolve, if_pos (by simpa using h)] at hr
    exact Option.noConfusion hr
  rcases hsteps.cases_head with h | ⟨c, hc, -⟩
  · exact ⟨h.symm, by rw [← h]; exact hr⟩
  · exact absurd (step_starts_pending hc) (by simp [hdone])

/-- Witness for C3: the already-settled promise `NewResolved 5` is a
fixed point of the step relation and keeps resolving to `(5, nil)`. -/
theorem settled_promise_is_immutable_witness :
    (NewResolved 5 : PromiseD Nat Nat) = NewResolved 5 ∧
    (NewResolved 5 : PromiseD Nat Nat).Resolve = some ⟨5, none⟩ :=
  settled_promise_is_immutable (NewResolved 5) (NewResolved 5) ⟨5, none⟩ rfl
    Relation.ReflTransGen.refl

/-- C4: for every promise `p` that settles with error `e` and every
handler `f`, `Then(p, f)` never invokes `f` and its derived promise
settles with the same error `e`, unchanged — both when `Then` is called
while `p` is pending (the registered failure wrapper propagates `e`,
and no success handler, in particular not `f`'s wrapper, is invoked)
and when `p` is already settled with failure (the spawned task's
producer yields `e` without consulting `f`, so it coincides with the
producer built from any other handler `g`). -/
theorem then_propagates_failure {T X : Type} [Inhabited X]
    (p : PromiseD T X) (hp : p.notDone = true)
    (f g : T → X × GoErr) (v : T) (e : String) :
    ((Then p f).source.call (fun _ => (v, some e))).successRuns = [] ∧
    ((Then p f).source.call (fun _ => (v, some e))).failureRuns =
      (p.errorList ++ [thenCatchHn]).map (fun s => (s, e)) ∧
    (settleDerived ((thenCatchHn : String → X × GoErr) e)).state.Resolve =
      some ⟨default, some e⟩ ∧
    (Then (⟨false, [], [], v, some e⟩ : PromiseD T X) f).spawnedProducer =
      some (thenSettledProducer v (some e) f) ∧
    (settleDerived (thenSettledProducer v (some e) f ())).state.Resolve =
      some ⟨default, some e⟩ ∧
    thenSettledProducer v (some e) f = thenSettledProducer v (some e) g := by
  refine ⟨?_, ?_, ?_, ?_, ?_, ?_⟩
  · simp [Then, hp, Promise.call]
  · simp [Then, hp, Promise.call]
  · simp [settleDerived, thenCatchHn, Promise.call, Promise.Resolve]
  · simp [Then]
  · simp [settleDerived, thenSettledProducer, Promise.call, Promise.Resolve]
  · funext u
    simp [thenSettledProducer]

/-- Witness for C4: `Then` registered on a pending promise with empty
queues whose producer later fails with "boom" dispatches no success
handler and exactly the one propagating failure wrapper, and that
wrapper settles the derived promise with the same error. -/
theorem then_propagates_failure_witness :
    ((Then (freshPending : PromiseD Nat Nat) (fun n => (n + 1, none))).source.call
        (fun _ => (5, some "boom"))).successRuns = [] ∧
    ((Then (freshPending : PromiseD Nat Nat) (fun n => (n + 1, none))).source.call
        (fun _ => (5, some "boom"))).failureRuns =
      ((freshPending : PromiseD Nat Nat).errorList ++ [thenCatchHn]).map
        (fun s => (s, "boom")) ∧
    (settleDerived ((thenCatchHn : String → Nat × GoErr) "boom")).state.Resolve =
      some ⟨default, some "boom"⟩ ∧
    (Then (⟨false, [], [], 5, some "boom"⟩ : PromiseD Nat Nat)
        (fun n => (n + 1, none))).spawnedProducer =
      some (thenSettledProducer 5 (some "boom") (fun n => (n + 1, none))) ∧
    (settleDerived
        (thenSettledProducer 5 (some "boom") (fun n => (n + 1, none)) ())).state.Resolve =
      some ⟨default, some "boom"⟩ ∧
    thenSettledProducer 5 (some "boom") (fun n => (n + 1, none)) =
      thenSettledProducer 5 (some "boom") (fun _ => (0, none)) :=
  then_propagates_failure freshPending rfl (fun n => (n + 1, none))
    (fun _ => (0, none)) 5 "boom"

/-- C1 counterexample: `Catch` called on a *pending* promise whose
producer later succeeds.  `Catch` registers only a failure wrapper and
spawns nothing; the success settlement pass dispatches no handler at
all (the source's success queue is empty and the failure queue is
skipped), so nothing in the program ever settles the derived promise —
its `Resolve` stays `none`, contradicting the claim that the derived
promise settles successfully for *every* `p` that eventually succeeds,
including promises still pending when `Catch` is called. -/
theorem catch_on_pending_success_never_settles_derived :
    (Catch (freshPending : PromiseD Nat Nat) (fun _ => (7, none))).spawnedProducer
      = none ∧
    ((Catch (freshPending : PromiseD Nat Nat) (fun _ => (7, none))).source.call
        (fun _ => (5, none))).successRuns = [] ∧
    ((Catch (freshPending : PromiseD Nat Nat) (fun _ => (7, none))).source.call
        (fun _ => (5, none))).failureRuns = [] ∧
    (Catch (freshPending : PromiseD Nat Nat) (fun _ => (7, none))).derived.Resolve
      = none := by
  refine ⟨rfl, ?_, ?_, rfl⟩
  · simp [Catch, freshPending, Promise.call]
  · simp [Catch, freshPending, Promise.call]

/-- C1 amended: for every promise `p` that settles successfully and
every handler `f`, `Catch(p, f)` never invokes `f`; if `p` is already
settled successfully when `Catch` is called, no concurrent task is
spawned and the derived promise is returned already settled
successfully with the result type's zero value and a nil error (and is
the same whatever handler is passed); if `p` is still pending when
`Catch` is called, no task is spawned either, the eventual success
settlement of `p` dispatches no handler registered by this `Catch`
(only `p`'s pre-existing success handlers run), and the derived promise
never settles — it remains unresolved. -/
theorem catch_success_passthrough {T X : Type} [Inhabited T] [Inhabited X]
    (p : PromiseD T X) (f g : String → X × GoErr) (v : T) :
    ((Catch (⟨false, [], [], v, none⟩ : PromiseD T X) f).spawnedProducer = none ∧
     (Catch (⟨false, [], [], v, none⟩ : PromiseD T X) f).derived.Resolve =
       some ⟨default, none⟩ ∧
     (Catch (⟨false, [], [], v, none⟩ : PromiseD T X) f).derived =
       (Catch (⟨false, [], [], v, none⟩ : PromiseD T X) g).derived) ∧
    (p.notDone = true →
      (Catch p f).spawnedProducer = none ∧
      ((Catch p f).source.call (fun _ => (v, none))).failureRuns = [] ∧
      ((Catch p f).source.call (fun _ => (v, none))).successRuns =
        p.thenList.map (fun s => (s, v)) ∧
      (Catch p f).derived.Resolve = none) := by
  constructor
  · refine ⟨rfl, ?_, rfl⟩
    simp [Catch, freshPending, Promise.Resolve]
  · intro hp
    refine ⟨?_, ?_, ?_, ?_⟩
    · simp [Catch, hp]
    · simp [Catch, hp, Promise.call]
    · simp [Catch, hp, Promise.call]
    · simp [Catch, hp, freshPending, Promise.Resolve]

/-- Witness for C1 at concrete inputs: the pending-path branch applied
to a pending promise with empty queues that later succeeds with 5. -/
theorem catch_success_passthrough_witness :
    (Catch (freshPending : PromiseD Nat Nat) (fun _ => (7, none))).spawnedProducer
      = none ∧
    ((Catch (freshPending : PromiseD Nat Nat) (fun _ => (7, none))).source.call
        (fun _ => (5, none))).failureRuns = [] ∧
    ((Catch (freshPending : PromiseD Nat Nat) (fun _ => (7, none))).source.call
        (fun _ => (5, none))).successRuns =
      (freshPending : PromiseD Nat Nat).thenList.map (fun s => (s, 5)) ∧
    (Catch (freshPending : PromiseD Nat Nat) (fun _ => (7, none))).derived.Resolve
      = none :=
  (catch_success_passthrough freshPending (fun _ => (7, none))
    (fun _ => (0, none)) 5).2 rfl

/-- C5: `All` over zero promises returns an empty sequence and a nil
error; over promises that all settle successfully it returns the
sequence of their values index-aligned with the input and a nil error;
and if at least one input settles with failure it returns a non-nil
error (the first observed failure, observation order modelled as input
order). -/
theorem all_aligns_values_and_surfaces_failure {T : Type} [Inhabited T]
    (ps : List (T × GoErr)) :
    All ([] : List (T × GoErr)) = ([], none) ∧
    ((∀ o ∈ ps, o.2 = none) → All ps = (ps.map Prod.fst, none)) ∧
    ((∃ o ∈ ps, o.2 ≠ none) → (All ps).2 ≠ none) := by
  refine ⟨rfl, ?_, ?_⟩
  · intro h
    unfold All
    refine Prod.ext ?_ ?_
    · apply List.map_congr_left
      intro o ho
      rw [h o ho]
    · rw [List.findSome?_eq_none_iff]
      exact h
  · rintro ⟨o, ho, hne⟩ hnone
    rw [show (All ps).2 = ps.findSome? (fun o => o.2) from rfl,
      List.findSome?_eq_none_iff] at hnone
    exact hne (hnone o ho)

/-- Witness for C5, the spec's happy-path example:
`All(FromValue 1, FromValue 2, FromValue 3)` returns `([1,2,3], nil)`
(an already-resolved promise's outcome is its value and a nil error). -/
theorem all_aligns_values_and_surfaces_failure_witness :
    All [((1 : Nat), (none : GoErr)), (2, none), (3, none)] =
      ([((1 : Nat), (none : GoErr)), (2, none), (3, none)].map Prod.fst, none) :=
  (all_aligns_values_and_surfaces_failure
    [((1 : Nat), (none : GoErr)), (2, none), (3, none)]).2.1 (by decide)

/-- C6: `Race` called with zero promises returns the `NoPromises`
sentinel error together with the zero value of the result type,
whatever settlement-notification order the scheduler would have
produced. -/
theorem race_empty_returns_no_promises {T : Type} [Inhabited T] (win : Nat) :
    Race ([] : List (T × GoErr)) win = (default, some NoPromises) := rfl

/-- The iterator's internal index after `k` calls is `min k length`:
it advances by one per call until all slots are consumed and then stays
put. -/
theorem iterIndex_eq_min {T : Type} [Inhabited T]
    (ps : List (T × GoErr)) (fast : List Bool) (k : Nat) :
    iterIndex ps fast k = min k ps.length := by
  induction k with
  | zero => simp [iterIndex]
  | succ k ih =>
    rw [iterIndex, ih, iterNext]
    rcases lt_or_ge k ps.length with hk | hk
    · rw [min_eq_left hk.le, if_neg hk.ne]
      rw [min_eq_left hk]
    · rw [min_eq_right hk, if_pos rfl, min_eq_right (Nat.le_succ_of_le hk)]

/-- C7: over slots whose settled pair follows the zero-value-on-error
convention, the function returned by `Iterator` yields the promises'
outcomes strictly in input order: the i-th call returns slot i's
`(value, error)` pair with the end flag false (whether the slot's
promise was already settled — the fast path — or had to be awaited),
the call after all slots are consumed reports end with the zero value
and a nil error, and so does every further call. -/
theorem iterator_yields_in_input_order {T : Type} [Inhabited T]
    (ps : List (T × GoErr)) (fast : List Bool)
    (hconv : ∀ o ∈ ps, o.2 ≠ none → o.1 = default) :
    (∀ i, i < ps.length →
      iterOutput ps fast i =
        ((ps.getD i (default, none)).1, false, (ps.getD i (default, none)).2)) ∧
    (∀ k, ps.length ≤ k → iterOutput ps fast k = (default, true, none)) := by
  constructor
  · intro i hi
    rw [iterOutput, iterIndex_eq_min, min_eq_left hi.le, iterNext,
      if_neg hi.ne]
    have hmem : ps.getD i (default, none) ∈ ps := by
      rw [List.getD_eq_getElem _ _ hi]
      exact List.getElem_mem hi
    set o := ps.getD i (default, none) with ho
    rw [iterYield]
    rcases hf : fast.getD i true with _ | _
    · rcases he : o.2 with _ | e
      · simp only [Bool.false_eq_true, if_false, he]
      · have hd := hconv o hmem (by rw [he]; exact Option.some_ne_none e)
        simp only [Bool.false_eq_true, if_false, he, hd]
    · simp only [if_true]
  · intro k hk
    rw [iterOutput, iterIndex_eq_min, min_eq_right hk, iterNext, if_pos rfl]

/-- Witness for C7, the spec's example:
`Iterator(FromValue "a", FromError "b")` (both already settled, so both
on the fast path) yields `("a", false, nil)`, then
`("", false, err "b")`, then reports end twice. -/
theorem iterator_yields_in_input_order_witness :
    iterOutput [("a", (none : GoErr)), ("", some "b")] [true, true] 0 =
      (("a"), false, (none : GoErr)) ∧
    iterOutput [("a", (none : GoErr)), ("", some "b")] [true, true] 1 =
      ((""), false, some "b") ∧
    iterOutput [("a", (none : GoErr)), ("", some "b")] [true, true] 2 =
      (default, true, none) ∧
    iterOutput [("a", (none : GoErr)), ("", some "b")] [true, true] 3 =
      (default, true, none) := by
  have h := iterator_yields_in_input_order
    [("a", (none : GoErr)), ("", some "b")] [true, true] (by decide)
  exact ⟨h.1 0 (by decide), h.1 1 (by decide), h.2 2 (by decide),
    h.2 3 (by decide)⟩

/-- C8: a promise value constructed directly with all fields at their
zero values is immediately and successfully settled with the zero value
of `T`: `Resolve` returns a non-nil resolution carrying the zero value
and a nil error, and the combinators classify it as already settled
successfully — `Then` takes the already-settled path and spawns the
producer that feeds `f` the zero value (settling the derived promise
with `f`'s outcome), and `Catch` takes the settled-success shortcut:
no task, derived promise already settled success. -/
theorem zero_value_promise_is_settled_success {T X : Type}
    [Inhabited T] [Inhabited X]
    (f : T → X × GoErr) (g : String → X × GoErr) :
    (zeroPromise : PromiseD T X).Resolve = some ⟨default, none⟩ ∧
    (zeroPromise : PromiseD T X).notDone = false ∧
    (Then (zeroPromise : PromiseD T X) f).spawnedProducer =
      some (thenSettledProducer default none f) ∧
    (settleDerived (thenSettledProducer (default : T) none f ())).state.Resolve =
      some ⟨(f default).1, (f default).2⟩ ∧
    (Catch (zeroPromise : PromiseD T X) g).spawnedProducer = none ∧
    (Catch (zeroPromise : PromiseD T X) g).derived.Resolve =
      some ⟨default, none⟩ := by
  refine ⟨rfl, rfl, rfl, ?_, rfl, rfl⟩
  rcases hf : f default with ⟨x, e⟩
  cases e <;>
    simp [settleDerived, thenSettledProducer, Promise.call, Promise.Resolve, hf]

/-- C9: the from-producer-with-argument constructor delegates to the
plain from-producer constructor with the argument bound in: the
resulting settled state and dispatch trace coincide with those of
`NewFn (fun _ => f arg)`, and both promises settle with the same
`(value, error)` outcome, namely `f arg`. -/
theorem new_fn_with_arg_equiv_new_fn {T X HX HE : Type} [Inhabited X]
    (arg : T) (f : T → X × GoErr) :
    (NewFnWithArgSettled arg f : CallResult X HX HE) =
      NewFnSettled (fun _ => f arg) ∧
    (NewFnWithArgSettled arg f : CallResult X HX HE).state.Resolve =
      some ⟨(f arg).1, (f arg).2⟩ ∧
    (NewFnSettled (fun _ => f arg) : CallResult X HX HE).state.Resolve =
      some ⟨(f arg).1, (f arg).2⟩ := by
  refine ⟨rfl, ?_, ?_⟩ <;>
  · rcases hf : f arg with ⟨x, e⟩
    cases e <;>
      simp [NewFnWithArgSettled, NewFnSettled, freshPending, Promise.call,
        Promise.Resolve, hf]

/-- C10: `NewRejected` with a nil error yields a promise every
operation observes as successfully settled with the zero value of `T`
(outcome classification looks only at whether the stored error is
non-nil): `Resolve` returns the zero value with a nil error, `Then`
spawns the success-branch producer that hands its handler the zero
value, and `Catch` short-circuits — no task, derived promise already
settled success, independent of the handler passed. -/
theorem new_rejected_nil_behaves_as_success {T X : Type}
    [Inhabited T] [Inhabited X]
    (f : T → X × GoErr) (g k : String → X × GoErr) :
    (NewRejected none : PromiseD T X).Resolve = some ⟨default, none⟩ ∧
    (Then (NewRejected none : PromiseD T X) f).spawnedProducer =
      some (thenSettledProducer default none f) ∧
    thenSettledProducer (default : T) none f () = f default ∧
    (Catch (NewRejected none : PromiseD T X) g).spawnedProducer = none ∧
    (Catch (NewRejected none : PromiseD T X) g).derived.Resolve =
      some ⟨default, none⟩ ∧
    (Catch (NewRejected none : PromiseD T X) g).derived =
      (Catch (NewRejected none : PromiseD T X) k).derived :=
  ⟨rfl, rfl, rfl, rfl, rfl, rfl⟩

end PinkyPromise
